import Mathlib

/-!
Verification of the hyperswitch routing/decision engine specification.

The development shallowly embeds the code of
`crates/router/src/routes/routing.rs` (route handler configuration:
authentication strategies and lock actions) and
`crates/router/src/encryption.rs` (key-manager client), and models the
core routing engine (`core::routing`, expression engine, rule programs)
from the specification, since only its callers are present in the
repository surface under study.
-/

namespace Hyperswitch

/-! ## Route-handler layer (embedded from routes/routing.rs) -/

/-- JWT permissions referenced by the routing routes
(`services::authorization::permissions::Permission`). -/
inductive Permission
  | RoutingRead
  | RoutingWrite
  | SurchargeDecisionManagerRead
  | SurchargeDecisionManagerWrite
deriving DecidableEq, Repr

/-- Authentication strategies appearing in the route handlers:
`HeaderAuth(ApiKeyAuth)`, bare `ApiKeyAuth`, `JWTAuth(p)`, and the
composite `auth_type(primary, fallback, headers)` which accepts either. -/
inductive AuthStrategy
  | headerApiKey
  | apiKey
  | jwt (p : Permission)
  | authType (primary fallback : AuthStrategy)
deriving DecidableEq, Repr

/-- Modelled from the spec: the `api_locking` module is not part of the
source surface; §5 of the spec describes named scope-specific
mutual-exclusion locks, and the route handlers reference
`LockAction::NotApplicable`.  A lock action is either a named
scope-specific lock or the no-lock action. -/
inductive LockAction
  | scopeLock (lockName : String)
  | notApplicable
deriving DecidableEq, Repr

/-- The `Flow` tags used by the routing route handlers. -/
inductive Flow
  | RoutingCreateConfig
  | RoutingLinkConfig
  | RoutingRetrieveConfig
  | RoutingRetrieveDictionary
  | RoutingUnlinkConfig
  | RoutingUpdateDefaultConfig
  | RoutingRetrieveDefaultConfig
  | RoutingRetrieveActiveConfig
  | DecisionManagerUpsertConfig
  | DecisionManagerDeleteConfig
  | DecisionManagerRetrieveConfig
deriving DecidableEq, Repr

/-- The configuration each route handler in `routes/routing.rs` passes to
`oss_api::server_wrap`: the flow tag, the authentication used when the
`release` feature is off, the authentication used when it is on, and the
lock action. -/
structure RouteConfig where
  flow : Flow
  authNonRelease : AuthStrategy
  authRelease : AuthStrategy
  lockAction : LockAction
deriving DecidableEq, Repr

/-- `routing_create_config` (routes/routing.rs lines 20-52). -/
def routing_create_config : RouteConfig :=
  { flow := .RoutingCreateConfig
    authNonRelease := .authType .headerApiKey (.jwt .RoutingWrite)
    authRelease := .jwt .RoutingWrite
    lockAction := .notApplicable }

/-- `routing_link_config`, v1 variant (lines 60-92). -/
def routing_link_config : RouteConfig :=
  { flow := .RoutingLinkConfig
    authNonRelease := .authType .headerApiKey (.jwt .RoutingWrite)
    authRelease := .jwt .RoutingWrite
    lockAction := .notApplicable }

/-- `routing_link_config`, routing_v2 variant (lines 96-135). -/
def routing_link_config_v2 : RouteConfig :=
  { flow := .RoutingLinkConfig
    authNonRelease := .authType .apiKey (.jwt .RoutingWrite)
    authRelease := .jwt .RoutingWrite
    lockAction := .notApplicable }

/-- `routing_retrieve_config` (lines 139-170). -/
def routing_retrieve_config : RouteConfig :=
  { flow := .RoutingRetrieveConfig
    authNonRelease := .authType .headerApiKey (.jwt .RoutingRead)
    authRelease := .jwt .RoutingRead
    lockAction := .notApplicable }

/-- `list_routing_configs` (lines 174-205). -/
def list_routing_configs : RouteConfig :=
  { flow := .RoutingRetrieveDictionary
    authNonRelease := .authType .headerApiKey (.jwt .RoutingRead)
    authRelease := .jwt .RoutingRead
    lockAction := .notApplicable }

/-- `routing_unlink_config`, routing_v2 variant (lines 209-241). -/
def routing_unlink_config_v2 : RouteConfig :=
  { flow := .RoutingUnlinkConfig
    authNonRelease := .authType .apiKey (.jwt .RoutingWrite)
    authRelease := .jwt .RoutingWrite
    lockAction := .notApplicable }

/-- `routing_unlink_config`, v1 variant (lines 249-281). -/
def routing_unlink_config : RouteConfig :=
  { flow := .RoutingUnlinkConfig
    authNonRelease := .authType .headerApiKey (.jwt .RoutingWrite)
    authRelease := .jwt .RoutingWrite
    lockAction := .notApplicable }

/-- `routing_update_default_config`, business_profile_v2 variant
(lines 290-325). -/
def routing_update_default_config_v2 : RouteConfig :=
  { flow := .RoutingUpdateDefaultConfig
    authNonRelease := .authType .headerApiKey (.jwt .RoutingWrite)
    authRelease := .jwt .RoutingWrite
    lockAction := .notApplicable }

/-- `routing_update_default_config`, v1 variant (lines 333-363). -/
def routing_update_default_config : RouteConfig :=
  { flow := .RoutingUpdateDefaultConfig
    authNonRelease := .authType .headerApiKey (.jwt .RoutingWrite)
    authRelease := .jwt .RoutingWrite
    lockAction := .notApplicable }

/-- `routing_retrieve_default_config`, business_profile_v2 variant
(lines 372-401). -/
def routing_retrieve_default_config_v2 : RouteConfig :=
  { flow := .RoutingRetrieveDefaultConfig
    authNonRelease := .authType .headerApiKey (.jwt .RoutingRead)
    authRelease := .jwt .RoutingRead
    lockAction := .notApplicable }

/-- `routing_retrieve_default_config`, v1 variant (lines 409-433). -/
def routing_retrieve_default_config : RouteConfig :=
  { flow := .RoutingRetrieveDefaultConfig
    authNonRelease := .authType .headerApiKey (.jwt .RoutingRead)
    authRelease := .jwt .RoutingRead
    lockAction := .notApplicable }

/-- `upsert_surcharge_decision_manager_config` (lines 437-467). -/
def upsert_surcharge_decision_manager_config : RouteConfig :=
  { flow := .DecisionManagerUpsertConfig
    authNonRelease := .authType .headerApiKey (.jwt .SurchargeDecisionManagerWrite)
    authRelease := .jwt .SurchargeDecisionManagerWrite
    lockAction := .notApplicable }

/-- `delete_surcharge_decision_manager_config` (lines 470-498). -/
def delete_surcharge_decision_manager_config : RouteConfig :=
  { flow := .DecisionManagerDeleteConfig
    authNonRelease := .authType .headerApiKey (.jwt .SurchargeDecisionManagerWrite)
    authRelease := .jwt .SurchargeDecisionManagerWrite
    lockAction := .notApplicable }

/-- `retrieve_surcharge_decision_manager_config` (lines 502-529). -/
def retrieve_surcharge_decision_manager_config : RouteConfig :=
  { flow := .DecisionManagerRetrieveConfig
    authNonRelease := .authType .headerApiKey (.jwt .SurchargeDecisionManagerRead)
    authRelease := .jwt .SurchargeDecisionManagerRead
    lockAction := .notApplicable }

/-- `upsert_decision_manager_config` (lines 533-563): the conditional
config upsert route; note its JWT permission is
`SurchargeDecisionManagerRead`. -/
def upsert_decision_manager_config : RouteConfig :=
  { flow := .DecisionManagerUpsertConfig
    authNonRelease := .authType .headerApiKey (.jwt .SurchargeDecisionManagerRead)
    authRelease := .jwt .SurchargeDecisionManagerRead
    lockAction := .notApplicable }

/-- `delete_decision_manager_config` (lines 567-595). -/
def delete_decision_manager_config : RouteConfig :=
  { flow := .DecisionManagerDeleteConfig
    authNonRelease := .authType .headerApiKey (.jwt .SurchargeDecisionManagerWrite)
    authRelease := .jwt .SurchargeDecisionManagerWrite
    lockAction := .notApplicable }

/-- `retrieve_decision_manager_config` (lines 599-623). -/
def retrieve_decision_manager_config : RouteConfig :=
  { flow := .DecisionManagerRetrieveConfig
    authNonRelease := .authType .headerApiKey (.jwt .SurchargeDecisionManagerRead)
    authRelease := .jwt .SurchargeDecisionManagerRead
    lockAction := .notApplicable }

/-- `routing_retrieve_linked_config`, v1 variant (lines 631-664). -/
def routing_retrieve_linked_config : RouteConfig :=
  { flow := .RoutingRetrieveActiveConfig
    authNonRelease := .authType .headerApiKey (.jwt .RoutingRead)
    authRelease := .jwt .RoutingRead
    lockAction := .notApplicable }

/-- `routing_retrieve_linked_config`, business_profile_v2 variant
(lines 673-712). -/
def routing_retrieve_linked_config_v2 : RouteConfig :=
  { flow := .RoutingRetrieveActiveConfig
    authNonRelease := .authType .headerApiKey (.jwt .RoutingRead)
    authRelease := .jwt .RoutingRead
    lockAction := .notApplicable }

/-- `routing_retrieve_default_config_for_profiles` (lines 716-749): the
only route whose release-mode authentication is the same composite
`auth_type(HeaderAuth(ApiKeyAuth), JWTAuth(RoutingRead))` as its
non-release authentication. -/
def routing_retrieve_default_config_for_profiles : RouteConfig :=
  { flow := .RoutingRetrieveDefaultConfig
    authNonRelease := .authType .headerApiKey (.jwt .RoutingRead)
    authRelease := .authType .headerApiKey (.jwt .RoutingRead)
    lockAction := .notApplicable }

/-- `routing_update_default_config_for_profile` (lines 753-790). -/
def routing_update_default_config_for_profile : RouteConfig :=
  { flow := .RoutingUpdateDefaultConfig
    authNonRelease := .authType .headerApiKey (.jwt .RoutingWrite)
    authRelease := .jwt .RoutingWrite
    lockAction := .notApplicable }

/-- The mutating administrative routes: link, unlink, update-default,
and the conditional / surcharge rule-program upsert and delete routes. -/
def mutatingRouteConfigs : List RouteConfig :=
  [ routing_link_config, routing_link_config_v2,
    routing_unlink_config, routing_unlink_config_v2,
    routing_update_default_config, routing_update_default_config_v2,
    routing_update_default_config_for_profile,
    upsert_surcharge_decision_manager_config,
    delete_surcharge_decision_manager_config,
    upsert_decision_manager_config,
    delete_decision_manager_config ]

/-- The routing read routes other than
`routing_retrieve_default_config_for_profiles`. -/
def otherRoutingReadConfigs : List RouteConfig :=
  [ routing_retrieve_config, list_routing_configs,
    routing_retrieve_default_config, routing_retrieve_default_config_v2,
    routing_retrieve_linked_config, routing_retrieve_linked_config_v2 ]

/-! ## Key-manager client (embedded from encryption.rs) -/

/-- Error type of the low-level api client
(`errors::ApiClientError`, the variants used in encryption.rs). -/
inductive ApiClientError
  | ClientConstructionFailed
  | UrlEncodingFailed
  | HeaderMapConstructionFailed
  | RequestNotSent
deriving DecidableEq, Repr

/-- `errors::KeyManagerClientError`: error type of
`call_encryption_service`.  The byte-level variants carry the response
body bytes. -/
inductive KeyManagerClientError
  | RequestSendFailed
  | ResponseDecodingFailed
  | InternalServerError (body : List Nat)
  | BadRequest (body : List Nat)
  | Unexpected (body : List Nat)
deriving DecidableEq, Repr

/-- `errors::KeyManagerError`: error type of the two key-manager entry
points. -/
inductive KeyManagerError
  | KeyAddFailed
  | KeyTransferFailed
deriving DecidableEq, Repr

/-- An HTTP response from the key-manager service: the status code and
the body bytes. -/
structure HttpResponse where
  status : Nat
  body : List Nat
deriving DecidableEq, Repr

/-- `call_encryption_service` (encryption.rs lines 91-143), abstracted
over the outcome of `send_encryption_request` and over serde decoding of
the generic response type `R`.  A send failure becomes
`RequestSendFailed`; then the handler matches on the response status:
200 decodes the body (`ResponseDecodingFailed` on decode failure), 500
returns `InternalServerError` with the body bytes, 400 returns
`BadRequest` with the body bytes, and any other status returns
`Unexpected` with the body bytes. -/
def call_encryption_service {R : Type} (decodeBody : List Nat → Option R)
    (sendResult : Except ApiClientError HttpResponse) :
    Except KeyManagerClientError R :=
  match sendResult with
  | .error _ => .error .RequestSendFailed
  | .ok response =>
    if response.status = 200 then
      match decodeBody response.body with
      | some r => .ok r
      | none => .error .ResponseDecodingFailed
    else if response.status = 500 then
      .error (.InternalServerError response.body)
    else if response.status = 400 then
      .error (.BadRequest response.body)
    else
      .error (.Unexpected response.body)

/-- `create_key_in_key_manager` (encryption.rs lines 145-152):
`change_context` maps any error of `call_encryption_service` to
`KeyAddFailed`. -/
def create_key_in_key_manager {R : Type} (decodeBody : List Nat → Option R)
    (sendResult : Except ApiClientError HttpResponse) :
    Except KeyManagerError R :=
  (call_encryption_service decodeBody sendResult).mapError
    (fun _ => KeyManagerError.KeyAddFailed)

/-- `transfer_key_to_key_manager` (encryption.rs lines 154-161):
`change_context` maps any error of `call_encryption_service` to
`KeyTransferFailed`. -/
def transfer_key_to_key_manager {R : Type} (decodeBody : List Nat → Option R)
    (sendResult : Except ApiClientError HttpResponse) :
    Except KeyManagerError R :=
  (call_encryption_service decodeBody sendResult).mapError
    (fun _ => KeyManagerError.KeyTransferFailed)

/-! ## Expression engine

Modelled from the spec (§3 Expression, §4.1): the expression engine of
the core routing crate is not part of the source surface under src/. -/

/-- Modelled from the spec: a literal value of the attribute bag, one of
the small set of literal types (number, string, enum-tag, boolean). -/
inductive Literal
  | num (n : Int)
  | str (s : String)
  | enumTag (t : String)
  | boolVal (b : Bool)
deriving DecidableEq, Repr

/-- Comparison operators of expression leaves:
{=, ≠, <, ≤, >, ≥}. Membership (∈, ∉) is a separate leaf with a list of
values. -/
inductive CompOp
  | eq
  | ne
  | lt
  | le
  | gt
  | ge
deriving DecidableEq, Repr

/-- The attribute bag: a mapping from attribute names to literals. -/
structure AttributeBag where
  attrs : List (String × Literal)
deriving DecidableEq, Repr

/-- Resolve an attribute name in the bag. -/
def lookupAttr (bag : AttributeBag) (name : String) : Option Literal :=
  match bag.attrs.find? (fun p => p.fst == name) with
  | some p => some p.snd
  | none => none

/-- Modelled from the spec: an expression is a recursive boolean tree of
comparison leaves combined by AND, OR, NOT. -/
inductive Expression
  | comparison (attributeName : String) (op : CompOp) (literal : Literal)
  | membership (attributeName : String) (negated : Bool) (values : List Literal)
  | andE (l r : Expression)
  | orE (l r : Expression)
  | notE (e : Expression)
deriving DecidableEq, Repr

/-- Whether two literals have the same type tag. -/
def sameType : Literal → Literal → Bool
  | .num _, .num _ => true
  | .str _, .str _ => true
  | .enumTag _, .enumTag _ => true
  | .boolVal _, .boolVal _ => true
  | _, _ => false

/-- Apply a comparison operator to a resolved attribute value and the
rule's literal.  A mismatched literal type yields `false` rather than
failing; the ordering operators are defined on numbers and yield `false`
on any other type. -/
def applyOp (op : CompOp) (v lit : Literal) : Bool :=
  if sameType v lit then
    match op with
    | .eq => v == lit
    | .ne => !(v == lit)
    | .lt =>
      match v, lit with
      | .num a, .num b => a < b
      | _, _ => false
    | .le =>
      match v, lit with
      | .num a, .num b => a ≤ b
      | _, _ => false
    | .gt =>
      match v, lit with
      | .num a, .num b => b < a
      | _, _ => false
    | .ge =>
      match v, lit with
      | .num a, .num b => b ≤ a
      | _, _ => false
  else false

/-- `evaluate(expr, attributes) -> bool` (spec §4.1): pure, total,
deterministic.  An unresolvable attribute reference makes the leaf
evaluate to `false`; AND/OR short-circuit. -/
def evaluate : Expression → AttributeBag → Bool
  | .comparison attributeName op lit, bag =>
    match lookupAttr bag attributeName with
    | some v => applyOp op v lit
    | none => false
  | .membership attributeName negated values, bag =>
    match lookupAttr bag attributeName with
    | some v => if negated then !(values.contains v) else values.contains v
    | none => false
  | .andE l r, bag => evaluate l bag && evaluate r bag
  | .orE l r, bag => evaluate l bag || evaluate r bag
  | .notE e, bag => !(evaluate e bag)

/-! ## Rule programs, algorithm store, activation manager, decision
engine

Modelled from the spec (§3, §4.2-§4.5, §7): the `core::routing`,
`core::conditional_config` and `core::surcharge_decision_config`
modules are not part of the source surface under src/; only their route
callers are. -/

/-- Modelled from the spec: one routable connector plus an optional
sub-account/label discriminator; equality is by the pair. -/
structure ConnectorChoice where
  connector : String
  subLabel : Option String
deriving DecidableEq, Repr

/-- A scope: a merchant id, optionally narrowed to a business profile. -/
structure Scope where
  merchantId : String
  profileId : Option String
deriving DecidableEq, Repr

/-- Transaction types. -/
inductive TransactionType
  | Payment
  | Payout
deriving DecidableEq, Repr

/-- The key of a per-scope, per-transaction-type configuration unit. -/
structure ScopeKey where
  scope : Scope
  txnType : TransactionType
deriving DecidableEq, Repr

/-- Lifecycle status of a stored routing algorithm. -/
inductive AlgorithmStatus
  | Created
  | Active
  | Inactive
deriving DecidableEq, Repr

/-- Modelled from the spec: a rule of a rule program — a condition and
an output of the program's output type. -/
structure Rule (O : Type) where
  condition : Expression
  output : O
deriving DecidableEq, Repr

/-- Modelled from the spec: a rule program — an ordered sequence of
rules plus a single default output. -/
structure RuleProgram (O : Type) where
  rules : List (Rule O)
  default_output : O
deriving DecidableEq, Repr

/-- `decide(program, attributes)` (spec §4.4): rules are tried in
stored order, the first rule whose condition evaluates true wins; if
none match, `default_output` is used. -/
def decide {O : Type} (program : RuleProgram O) (attributes : AttributeBag) : O :=
  match program.rules.find? (fun r => evaluate r.condition attributes) with
  | some r => r.output
  | none => program.default_output

/-- Modelled from the spec: the kind-specific body of a routing
algorithm (§4.2). -/
inductive AlgorithmBody
  | priorityFallback (connectors : List ConnectorChoice)
  | ruleBased (program : RuleProgram (List ConnectorChoice))
  | volumeSplit (splits : List (ConnectorChoice × Nat))
deriving DecidableEq, Repr

/-- Modelled from the spec: a stored routing algorithm record (§3). -/
structure RoutingAlgorithm where
  id : String
  scope : ScopeKey
  name : String
  description : String
  body : AlgorithmBody
  status : AlgorithmStatus
deriving DecidableEq, Repr

/-- Per scope+transaction-type activation state: the linked algorithm
id (if any) and the static default fallback list. -/
structure ActiveConfig where
  linked_algorithm_id : Option String
  default_fallback : List ConnectorChoice
deriving DecidableEq, Repr

/-- The output of a conditional-config rule program: a chosen routing
algorithm id, or `none` for the explicit use-default sentinel. -/
def CondOutput : Type := Option String

/-- Modelled from the spec: the whole engine state — the algorithm
store, the activation configs, and the per-scope conditional-config
rule programs. -/
structure EngineState where
  algorithms : List RoutingAlgorithm
  activeConfigs : List (ScopeKey × ActiveConfig)
  condPrograms : List (Scope × RuleProgram (Option String))
deriving DecidableEq, Repr

/-- The error taxonomy of the engine (spec §7). -/
inductive RoutingError
  | ValidationError
  | NameTooLong
  | NotFound
  | NothingLinked
  | NoRoutingDestination
deriving DecidableEq, Repr

/-- Look up the active config of a scope key; an uninitialized scope
reads as no link and an empty fallback list. -/
def getActiveConfig (s : EngineState) (key : ScopeKey) : ActiveConfig :=
  match s.activeConfigs.find? (fun p => p.fst == key) with
  | some p => p.snd
  | none => { linked_algorithm_id := none, default_fallback := [] }

/-- Replace the active config stored for a scope key. -/
def setActiveConfig (s : EngineState) (key : ScopeKey) (cfg : ActiveConfig) :
    EngineState :=
  { s with activeConfigs :=
      (key, cfg) :: s.activeConfigs.filter (fun p => !(p.fst == key)) }

/-- Whether a stored algorithm is Active for the given scope key. -/
def isActiveFor (key : ScopeKey) (a : RoutingAlgorithm) : Bool :=
  a.scope == key && a.status == AlgorithmStatus.Active

/-- The number of algorithms with status Active for a scope key. -/
def activeCount (s : EngineState) (key : ScopeKey) : Nat :=
  s.algorithms.countP (isActiveFor key)

/-- The activation invariant (spec §3, §8): at most one algorithm per
scope+transaction_type holds status Active. -/
def activeUnique (s : EngineState) : Prop :=
  ∀ key, activeCount s key ≤ 1

/-- Store well-formedness: algorithm ids are unique (the store hands
out fresh ids). -/
def idsNodup (s : EngineState) : Prop :=
  (s.algorithms.map RoutingAlgorithm.id).Nodup

/-- Whether a connector list contains a duplicate choice. -/
def hasDuplicate : List ConnectorChoice → Bool
  | [] => false
  | c :: rest => rest.contains c || hasDuplicate rest

/-- Body validation at create time (spec §4.2): a priority-list body is
a non-empty sequence of distinct choices; a weighted-split body's
weights must sum to a positive total; a rule-based body is accepted. -/
def validateBody : AlgorithmBody → Bool
  | .priorityFallback connectors =>
    !connectors.isEmpty && !(hasDuplicate connectors)
  | .ruleBased _ => true
  | .volumeSplit splits => 0 < (splits.map Prod.snd).sum

/-- The platform limit on algorithm names. -/
def maxNameLength : Nat := 64

/-- `create(scope, txn_type, name, description, kind, body) -> id`
(spec §4.2).  The fresh id comes from the external id generator and is
passed in; the created record starts at status Created. -/
def create (s : EngineState) (key : ScopeKey) (name description : String)
    (body : AlgorithmBody) (freshId : String) :
    Except RoutingError (String × EngineState) :=
  if validateBody body then
    if name.length ≤ maxNameLength then
      .ok (freshId,
        { s with algorithms :=
            s.algorithms ++
              [{ id := freshId, scope := key, name := name,
                 description := description, body := body,
                 status := .Created }] })
    else .error .NameTooLong
  else .error .ValidationError

/-- The status rewrite performed by `link`: the target algorithm is
promoted to Active, any other algorithm of the same scope key that was
Active is demoted to Inactive. -/
def relinkStatus (key : ScopeKey) (algorithm_id : String)
    (a : RoutingAlgorithm) : RoutingAlgorithm :=
  if a.id == algorithm_id then { a with status := .Active }
  else if isActiveFor key a then { a with status := .Inactive }
  else a

/-- `link(scope, txn_type, algorithm_id)` (spec §4.3): fails NotFound
if the algorithm is absent or foreign; otherwise atomically demotes the
previous Active record, promotes the target, and updates the pointer. -/
def link (s : EngineState) (key : ScopeKey) (algorithm_id : String) :
    Except RoutingError EngineState :=
  match s.algorithms.find? (fun a => a.id == algorithm_id) with
  | none => .error .NotFound
  | some alg =>
    if alg.scope == key then
      let cfg := getActiveConfig s key
      .ok (setActiveConfig
        { s with algorithms := s.algorithms.map (relinkStatus key algorithm_id) }
        key { cfg with linked_algorithm_id := some algorithm_id })
    else .error .NotFound

/-- `unlink(scope, txn_type)` (spec §4.3): clears the pointer and
demotes the previously linked algorithm to Inactive; fails
NothingLinked if nothing was linked. -/
def unlink (s : EngineState) (key : ScopeKey) :
    Except RoutingError EngineState :=
  let cfg := getActiveConfig s key
  match cfg.linked_algorithm_id with
  | none => .error .NothingLinked
  | some algorithm_id =>
    .ok (setActiveConfig
      { s with algorithms := s.algorithms.map (fun a =>
          if a.id == algorithm_id then { a with status := .Inactive } else a) }
      key { cfg with linked_algorithm_id := none })

/-- `update_default_fallback(scope, txn_type, ordered_connectors)`
(spec §4.3): replaces the fallback list; fails ValidationError unless
the list is non-empty and duplicate-free; independent of the link
pointer. -/
def update_default_fallback (s : EngineState) (key : ScopeKey)
    (connectors : List ConnectorChoice) : Except RoutingError EngineState :=
  if connectors.isEmpty || hasDuplicate connectors then
    .error .ValidationError
  else
    .ok (setActiveConfig s key
      { getActiveConfig s key with default_fallback := connectors })

/-- `upsert(scope, program)` of the Conditional Config Manager
(spec §4.4): wholesale replaces the scope's program. -/
def upsert_conditional_config (s : EngineState) (scope : Scope)
    (program : RuleProgram (Option String)) : Except RoutingError EngineState :=
  .ok { s with condPrograms :=
    (scope, program) :: s.condPrograms.filter (fun p => !(p.fst == scope)) }

/-- `delete(scope)` of the Conditional Config Manager (spec §4.4):
wholesale removes the scope's program; NotFound if none is configured. -/
def delete_conditional_config (s : EngineState) (scope : Scope) :
    Except RoutingError EngineState :=
  if (s.condPrograms.find? (fun p => p.fst == scope)).isSome then
    .ok { s with condPrograms :=
      s.condPrograms.filter (fun p => !(p.fst == scope)) }
  else .error .NotFound

/-- Kind-specific evaluation of an algorithm body (spec §4.2): a
priority list yields its sequence unchanged; a rule-based body runs its
embedded rule program; a volume split yields its positive-weight
choices ordered by descending weight (the weighted random selection of
the code is abstracted deterministically — only emptiness matters to
the fallback cascade). -/
def evalBody (body : AlgorithmBody) (attributes : AttributeBag) :
    List ConnectorChoice :=
  match body with
  | .priorityFallback connectors => connectors
  | .ruleBased program => decide program attributes
  | .volumeSplit splits =>
    ((splits.filter (fun p => 0 < p.snd)).mergeSort
      (fun a b => b.snd ≤ a.snd)).map Prod.fst

/-- Steps 1-3 of `decide_routing` (spec §4.5): resolve a chosen
algorithm id — from the conditional-config program when one exists for
the scope, else from the link pointer — then evaluate the algorithm's
body; any gap (use-default sentinel, no link, dangling id) yields the
empty list, which falls through to the fallback tier. -/
def evalAlgorithmTier (s : EngineState) (key : ScopeKey)
    (attributes : AttributeBag) : List ConnectorChoice :=
  let cfg := getActiveConfig s key
  let chosenId : Option String :=
    match s.condPrograms.find? (fun p => p.fst == key.scope) with
    | some p =>
      match decide p.snd attributes with
      | some algorithm_id => some algorithm_id
      | none => cfg.linked_algorithm_id
    | none => cfg.linked_algorithm_id
  match chosenId with
  | some algorithm_id =>
    match s.algorithms.find? (fun a => a.id == algorithm_id) with
    | some alg => evalBody alg.body attributes
    | none => []
  | none => []

/-- `decide_routing(scope, txn_type, attributes)` (spec §4.5): the
algorithm tier if it yields a non-empty list, else the default
fallback, else the terminal failure `NoRoutingDestination`. -/
def decide_routing (s : EngineState) (key : ScopeKey)
    (attributes : AttributeBag) :
    Except RoutingError (List ConnectorChoice) :=
  let viaAlg := evalAlgorithmTier s key attributes
  if viaAlg.isEmpty then
    let fb := (getActiveConfig s key).default_fallback
    if fb.isEmpty then .error .NoRoutingDestination else .ok fb
  else .ok viaAlg

/-! ## Concrete sample data used by witnesses -/

/-- A sample connector choice. -/
def sampleConnector : ConnectorChoice := { connector := "stripe", subLabel := none }

/-- A second, distinct sample connector choice. -/
def sampleConnector2 : ConnectorChoice := { connector := "adyen", subLabel := none }

/-- A sample scope. -/
def sampleScope : Scope := { merchantId := "merchant_1", profileId := none }

/-- A sample scope key. -/
def sampleKey : ScopeKey := { scope := sampleScope, txnType := .Payment }

/-- A sample stored algorithm. -/
def sampleAlgorithm : RoutingAlgorithm :=
  { id := "algo_1", scope := sampleKey, name := "prio", description := ""
    body := .priorityFallback [sampleConnector], status := .Created }

/-- A sample engine state: one stored algorithm, a linked active
config with a non-empty fallback list, no conditional program. -/
def sampleState : EngineState :=
  { algorithms := [sampleAlgorithm]
    activeConfigs :=
      [(sampleKey, { linked_algorithm_id := some "algo_1",
                     default_fallback := [sampleConnector2] })]
    condPrograms := [] }

/-- A sample rule mapping country US to output 1. -/
def ruleUS1 : Rule Nat :=
  { condition := .comparison "country" .eq (.str "US"), output := 1 }

/-- A second sample rule with the same condition and output 2. -/
def ruleUS2 : Rule Nat :=
  { condition := .comparison "country" .eq (.str "US"), output := 2 }

/-- A sample two-rule program with default output 0. -/
def sampleProgram : RuleProgram Nat :=
  { rules := [ruleUS1, ruleUS2], default_output := 0 }

/-- A sample attribute bag with country US. -/
def sampleBagUS : AttributeBag := { attrs := [("country", .str "US")] }

/-! ## Helper lemmas -/

/-- Reading back the config just written for a scope key. -/
theorem getActiveConfig_setActiveConfig (s : EngineState) (key : ScopeKey)
    (cfg : ActiveConfig) : getActiveConfig (setActiveConfig s key cfg) key = cfg := by
  simp [getActiveConfig, setActiveConfig]

/-- `find?` skips a prefix on which the predicate is everywhere false. -/
theorem find?_of_prefix_false {α : Type} (p : α → Bool) (pre rest : List α)
    (h : ∀ x ∈ pre, p x = false) : (pre ++ rest).find? p = rest.find? p := by
  induction pre with
  | nil => rfl
  | cons a t ih =>
    have ha : p a = false := h a (by simp)
    simp only [List.cons_append, List.find?_cons, ha]
    exact ih (fun x hx => h x (by simp [hx]))

/-- A state with a single stored algorithm satisfies the activation
invariant. -/
theorem activeUnique_singleton (a : RoutingAlgorithm)
    (cfgs : List (ScopeKey × ActiveConfig))
    (progs : List (Scope × RuleProgram (Option String))) :
    activeUnique { algorithms := [a], activeConfigs := cfgs, condPrograms := progs } := by
  intro key
  cases h : isActiveFor key a <;>
    simp [activeCount, List.countP_cons, h]

/-- With unique algorithm ids, at most one stored record matches a
given id. -/
theorem countP_id_le_one (s : EngineState) (h : idsNodup s)
    (algorithm_id : String) :
    s.algorithms.countP (fun a => a.id == algorithm_id) ≤ 1 := by
  have h1 : s.algorithms.countP (fun a => a.id == algorithm_id)
      = (s.algorithms.map RoutingAlgorithm.id).countP (fun i => i == algorithm_id) := by
    rw [List.countP_map]
    rfl
  have h2 : (s.algorithms.map RoutingAlgorithm.id).countP (fun i => i == algorithm_id)
      = (s.algorithms.map RoutingAlgorithm.id).count algorithm_id := rfl
  rw [h1, h2]
  exact List.nodup_iff_count_le_one.1 h algorithm_id

/-- A record that is Active for `key` after the link rewrite must be
the link target. -/
theorem relink_active_imp_id (key : ScopeKey) (algorithm_id : String)
    (a : RoutingAlgorithm)
    (h : isActiveFor key (relinkStatus key algorithm_id a) = true) :
    (a.id == algorithm_id) = true := by
  unfold relinkStatus at h
  by_cases hid : (a.id == algorithm_id) = true
  · exact hid
  · exfalso
    rw [if_neg hid] at h
    by_cases hact : isActiveFor key a = true
    · rw [if_pos hact] at h
      simp [isActiveFor] at h
    · rw [if_neg hact] at h
      exact hact h

/-- A record that is Active for a key other than the link's key after
the link rewrite was Active for that key before, provided the link
target belongs to the link's key. -/
theorem relink_active_other (key key' : ScopeKey) (algorithm_id : String)
    (a : RoutingAlgorithm) (hne : key' ≠ key)
    (htarget : (a.id == algorithm_id) = true → a.scope = key)
    (h : isActiveFor key' (relinkStatus key algorithm_id a) = true) :
    isActiveFor key' a = true := by
  unfold relinkStatus at h
  by_cases hid : (a.id == algorithm_id) = true
  · rw [if_pos hid] at h
    have hscope : a.scope = key := htarget hid
    simp [isActiveFor, hscope] at h
    exact absurd h.symm hne
  · rw [if_neg hid] at h
    by_cases hact : isActiveFor key a = true
    · rw [if_pos hact] at h
      simp [isActiveFor] at h
    · rwa [if_neg hact] at h

/-- A record that is Active after the unlink demotion was Active
before. -/
theorem demote_active_imp (algorithm_id : String) (key' : ScopeKey)
    (a : RoutingAlgorithm)
    (h : isActiveFor key'
      (if a.id == algorithm_id then { a with status := .Inactive } else a) = true) :
    isActiveFor key' a = true := by
  by_cases hid : (a.id == algorithm_id) = true
  · rw [if_pos hid] at h
    simp [isActiveFor] at h
  · rwa [if_neg hid] at h

/-! ## Claims -/

/-- C7: `evaluate` is a pure, total, deterministic boolean function: a
comparison leaf with an unresolvable attribute evaluates to false, a
comparison against a literal of mismatched type evaluates to false, a
membership leaf with an unresolvable attribute evaluates to false, and
every expression evaluates to a definite boolean. -/
theorem evaluate_total_permissive (attributeName : String) (op : CompOp)
    (lit : Literal) (bag : AttributeBag) :
    (lookupAttr bag attributeName = none →
      evaluate (.comparison attributeName op lit) bag = false)
    ∧ (∀ v, lookupAttr bag attributeName = some v → sameType v lit = false →
      evaluate (.comparison attributeName op lit) bag = false)
    ∧ (lookupAttr bag attributeName = none → ∀ negated values,
      evaluate (.membership attributeName negated values) bag = false)
    ∧ (∀ e : Expression, evaluate e bag = true ∨ evaluate e bag = false) := by
  refine ⟨?_, ?_, ?_, ?_⟩
  · intro h
    simp [evaluate, h]
  · intro v hv hty
    simp [evaluate, hv, applyOp, hty]
  · intro h negated values
    simp [evaluate, h]
  · intro e
    exact Bool.eq_false_or_eq_true (evaluate e bag)

/-- C7 witness: a comparison over the empty attribute bag evaluates to
false. -/
theorem evaluate_total_permissive_witness :
    evaluate (.comparison "country" .eq (.str "US")) { attrs := [] } = false :=
  (evaluate_total_permissive "country" .eq (.str "US") { attrs := [] }).1 rfl

/-- C4: `decide` returns the output of the first rule in stored order
whose condition is true, and the default output exactly when no rule's
condition is true; in particular for rules `[R1, R2]` with both
conditions true the result is R1's output. -/
theorem decide_first_match {O : Type} (program : RuleProgram O)
    (bag : AttributeBag) :
    ((∀ r ∈ program.rules, evaluate r.condition bag = false) →
      decide program bag = program.default_output)
    ∧ (∀ pre r post, program.rules = pre ++ r :: post →
      evaluate r.condition bag = true →
      (∀ r2 ∈ pre, evaluate r2.condition bag = false) →
      decide program bag = r.output)
    ∧ (∀ R1 R2 : Rule O, program.rules = [R1, R2] →
      evaluate R1.condition bag = true → evaluate R2.condition bag = true →
      decide program bag = R1.output) := by
  refine ⟨?_, ?_, ?_⟩
  · intro h
    have : program.rules.find? (fun r => evaluate r.condition bag) = none :=
      List.find?_eq_none.2 (fun x hx => by simp [h x hx])
    simp [Hyperswitch.decide, this]
  · intro pre r post hrules hr hpre
    have hfind : program.rules.find? (fun r => evaluate r.condition bag) = some r := by
      rw [hrules, find?_of_prefix_false _ pre (r :: post)
        (fun x hx => by simp [hpre x hx])]
      simp [hr]
    simp [Hyperswitch.decide, hfind]
  · intro R1 R2 hrules h1 _
    have hfind : program.rules.find? (fun r => evaluate r.condition bag) = some R1 := by
      rw [hrules]
      simp [h1]
    simp [Hyperswitch.decide, hfind]

/-- C4 witness: a two-rule program over the same true condition yields
the first rule's output. -/
theorem decide_first_match_witness :
    decide sampleProgram sampleBagUS = 1 :=
  (decide_first_match sampleProgram sampleBagUS).2.2 ruleUS1 ruleUS2
    rfl (by decide) (by decide)

/-- C6: `update_default_fallback` fails with ValidationError on an
empty or duplicate-containing connector list (producing no new state,
so the stored fallback is untouched); on a non-empty duplicate-free
list it always succeeds, and the new state stores exactly the given
list with the link pointer unchanged. -/
theorem update_default_fallback_validation (s : EngineState) (key : ScopeKey)
    (connectors : List ConnectorChoice) :
    ((connectors = [] ∨ hasDuplicate connectors = true) →
      update_default_fallback s key connectors = .error .ValidationError)
    ∧ (connectors ≠ [] → hasDuplicate connectors = false →
      ∃ s', update_default_fallback s key connectors = .ok s'
        ∧ getActiveConfig s' key
            = { linked_algorithm_id := (getActiveConfig s key).linked_algorithm_id,
                default_fallback := connectors }) := by
  constructor
  · intro h
    rcases h with h | h <;> simp [update_default_fallback, h]
  · intro hne hdup
    refine ⟨setActiveConfig s key
      { getActiveConfig s key with default_fallback := connectors }, ?_, ?_⟩
    · simp [update_default_fallback, hne, hdup]
    · rw [getActiveConfig_setActiveConfig]

/-- C6 witness: an update with a singleton list succeeds at the sample
state and stores that list. -/
theorem update_default_fallback_validation_witness :
    ∃ s', update_default_fallback sampleState sampleKey [sampleConnector] = .ok s'
      ∧ getActiveConfig s' sampleKey
          = { linked_algorithm_id := (getActiveConfig sampleState sampleKey).linked_algorithm_id,
              default_fallback := [sampleConnector] } :=
  (update_default_fallback_validation sampleState sampleKey [sampleConnector]).2
    (by decide) (by decide)

/-- C5: after a successful unlink the active config has its link
pointer cleared and its fallback list unchanged, and a second immediate
unlink fails with NothingLinked (producing no new state); unlink on a
scope with nothing linked fails with NothingLinked. -/
theorem unlink_idempotent (s : EngineState) (key : ScopeKey) :
    (∀ s', unlink s key = .ok s' →
      getActiveConfig s' key
        = { linked_algorithm_id := none,
            default_fallback := (getActiveConfig s key).default_fallback }
      ∧ unlink s' key = .error .NothingLinked)
    ∧ ((getActiveConfig s key).linked_algorithm_id = none →
      unlink s key = .error .NothingLinked) := by
  constructor
  · intro s' h
    cases hl : (getActiveConfig s key).linked_algorithm_id with
    | none => simp [unlink, hl] at h
    | some algorithm_id =>
      simp only [unlink, hl] at h
      injection h with h
      subst h
      refine ⟨getActiveConfig_setActiveConfig _ _ _, ?_⟩
      simp [unlink, getActiveConfig_setActiveConfig]
  · intro h
    simp [unlink, h]

/-- C5 witness: unlinking the sample state succeeds, clears the
pointer, keeps the fallback, and a second unlink reports
NothingLinked. -/
theorem unlink_idempotent_witness :
    getActiveConfig
        (setActiveConfig
          { sampleState with algorithms := [{ sampleAlgorithm with status := .Inactive }] }
          sampleKey
          { linked_algorithm_id := none, default_fallback := [sampleConnector2] })
        sampleKey
      = { linked_algorithm_id := none,
          default_fallback := (getActiveConfig sampleState sampleKey).default_fallback }
    ∧ unlink
        (setActiveConfig
          { sampleState with algorithms := [{ sampleAlgorithm with status := .Inactive }] }
          sampleKey
          { linked_algorithm_id := none, default_fallback := [sampleConnector2] })
        sampleKey = .error .NothingLinked :=
  (unlink_idempotent sampleState sampleKey).1 _ rfl

/-- C3: if the default fallback of the scope is non-empty then
`decide_routing` returns a non-empty connector list and does not fail,
whatever the program and link state; and any failure of
`decide_routing` is `NoRoutingDestination`, occurring exactly when the
algorithm tier yielded nothing and the fallback is empty. -/
theorem decide_routing_fallback_total (s : EngineState) (key : ScopeKey)
    (attributes : AttributeBag) :
    ((getActiveConfig s key).default_fallback ≠ [] →
      ∃ l, decide_routing s key attributes = .ok l ∧ l ≠ [])
    ∧ (∀ e, decide_routing s key attributes = .error e →
      e = .NoRoutingDestination
      ∧ evalAlgorithmTier s key attributes = []
      ∧ (getActiveConfig s key).default_fallback = []) := by
  constructor
  · intro hfb
    cases hvia : (evalAlgorithmTier s key attributes).isEmpty with
    | true =>
      refine ⟨(getActiveConfig s key).default_fallback, ?_, hfb⟩
      simp [decide_routing, hvia, hfb]
    | false =>
      refine ⟨evalAlgorithmTier s key attributes, ?_, ?_⟩
      · simp [decide_routing, hvia]
      · exact List.isEmpty_eq_false.1 hvia
  · intro e h
    cases hvia : (evalAlgorithmTier s key attributes).isEmpty with
    | true =>
      cases hfb : (getActiveConfig s key).default_fallback.isEmpty with
      | true =>
        simp only [decide_routing, hvia, hfb, if_true] at h
        exact ⟨by injection h with h'; exact h'.symm,
          List.isEmpty_eq_true.1 hvia, List.isEmpty_eq_true.1 hfb⟩
      | false => simp [decide_routing, hvia, hfb] at h
    | false => simp [decide_routing, hvia] at h

/-- C3 witness: the sample state has a non-empty fallback, so routing
over the empty attribute bag yields a non-empty list. -/
theorem decide_routing_fallback_total_witness :
    ∃ l, decide_routing sampleState sampleKey { attrs := [] } = .ok l ∧ l ≠ [] :=
  (decide_routing_fallback_total sampleState sampleKey { attrs := [] }).1 (by decide)

/-- C2: on a well-formed store (unique ids) satisfying the activation
invariant — at most one Active algorithm per scope+transaction_type —
every operation preserves the invariant; in particular `link`
atomically demotes the previously Active record when promoting its
target. -/
theorem operations_preserve_active_unique (s : EngineState)
    (hids : idsNodup s) (hinv : activeUnique s) :
    (∀ key algorithm_id s', link s key algorithm_id = .ok s' → activeUnique s')
    ∧ (∀ key s', unlink s key = .ok s' → activeUnique s')
    ∧ (∀ key connectors s',
      update_default_fallback s key connectors = .ok s' → activeUnique s')
    ∧ (∀ key name description body freshId result,
      create s key name description body freshId = .ok result →
      activeUnique result.snd)
    ∧ (∀ scope program s',
      upsert_conditional_config s scope program = .ok s' → activeUnique s')
    ∧ (∀ scope s',
      delete_conditional_config s scope = .ok s' → activeUnique s') := by
  refine ⟨?_, ?_, ?_, ?_, ?_, ?_⟩
  · intro key algorithm_id s' h
    cases hfind : s.algorithms.find? (fun a => a.id == algorithm_id) with
    | none =>
      simp [link, hfind] at h
    | some alg =>
      simp only [link, hfind] at h
      by_cases hscope : (alg.scope == key) = true
      · rw [if_pos hscope] at h
        injection h with h
        subst h
        have huniq : ∀ a ∈ s.algorithms, (a.id == algorithm_id) = true →
            a.scope = key := by
          intro a ha hid
          have halg : alg ∈ s.algorithms := List.mem_of_find?_eq_some hfind
          have halgid := List.find?_some hfind
          have heq : a = alg := by
            refine List.inj_on_of_nodup_map hids ha halg ?_
            rw [beq_iff_eq] at hid halgid
            rw [hid, halgid]
          rw [heq]
          exact beq_iff_eq.1 hscope
        intro key'
        show (s.algorithms.map (relinkStatus key algorithm_id)).countP
          (isActiveFor key') ≤ 1
        rw [List.countP_map]
        by_cases hk : key' = key
        · subst hk
          refine le_trans (List.countP_mono_left ?_)
            (countP_id_le_one s hids algorithm_id)
          intro a _ hpa
          exact relink_active_imp_id key' algorithm_id a hpa
        · refine le_trans (List.countP_mono_left ?_) (hinv key')
          intro a ha hpa
          exact relink_active_other key key' algorithm_id a hk
            (fun hm => huniq a ha hm) hpa
      · rw [if_neg hscope] at h
        exact Except.noConfusion h
  · intro key s' h
    cases hl : (getActiveConfig s key).linked_algorithm_id with
    | none =>
      simp [unlink, hl] at h
    | some algorithm_id =>
      simp only [unlink, hl] at h
      injection h with h
      subst h
      intro key'
      show (s.algorithms.map (fun a =>
        if a.id == algorithm_id then { a with status := .Inactive } else a)).countP
        (isActiveFor key') ≤ 1
      rw [List.countP_map]
      refine le_trans (List.countP_mono_left ?_) (hinv key')
      intro a _ hpa
      exact demote_active_imp algorithm_id key' a hpa
  · intro key connectors s' h
    rw [update_default_fallback] at h
    by_cases hcond : (connectors.isEmpty || hasDuplicate connectors) = true
    · rw [if_pos hcond] at h
      exact Except.noConfusion h
    · rw [if_neg hcond] at h
      injection h with h
      subst h
      intro key'
      exact hinv key'
  · intro key name description body freshId result h
    rw [create] at h
    by_cases hv : validateBody body = true
    · rw [if_pos hv] at h
      by_cases hn : name.length ≤ maxNameLength
      · rw [if_pos hn] at h
        injection h with h
        subst h
        intro key'
        unfold activeCount
        dsimp only
        rw [List.countP_append]
        have hzero : List.countP (isActiveFor key')
            [({ id := freshId, scope := key, name := name, description := description,
                body := body, status := AlgorithmStatus.Created } : RoutingAlgorithm)] = 0 := by
          simp [isActiveFor]
        rw [hzero, Nat.add_zero]
        exact hinv key'
      · rw [if_neg hn] at h
        exact Except.noConfusion h
    · rw [if_neg hv] at h
      exact Except.noConfusion h
  · intro scope program s' h
    injection h with h
    subst h
    intro key'
    exact hinv key'
  · intro scope s' h
    rw [delete_conditional_config] at h
    by_cases hfound : (s.condPrograms.find? (fun p => p.fst == scope)).isSome = true
    · rw [if_pos hfound] at h
      injection h with h
      subst h
      intro key'
      exact hinv key'
    · rw [if_neg hfound] at h
      exact Except.noConfusion h

/-- C2 witness: linking the sample algorithm in the sample state
leaves at most one Active algorithm for the sample scope key. -/
theorem operations_preserve_active_unique_witness :
    activeCount (setActiveConfig
      { sampleState with algorithms := [{ sampleAlgorithm with status := .Active }] }
      sampleKey
      { linked_algorithm_id := some "algo_1", default_fallback := [sampleConnector2] })
      sampleKey ≤ 1 :=
  (operations_preserve_active_unique sampleState (by unfold idsNodup; decide)
      (activeUnique_singleton sampleAlgorithm _ _)).1 sampleKey "algo_1" _ rfl sampleKey

/-- C1 counterexample: the mutating route handlers do not all supply a
lock other than the no-lock action — `routing_link_config` (and in fact
every handler) passes `LockAction::NotApplicable`. -/
theorem mutating_routes_not_all_locked :
    ¬ (∀ h ∈ mutatingRouteConfigs, h.lockAction ≠ LockAction.notApplicable) := by
  intro hall
  exact hall routing_link_config (by simp [mutatingRouteConfigs]) rfl

/-- C1 (amended): every mutating routing/decision-manager route handler
supplies the no-lock action `LockAction::NotApplicable`; no
scope-specific lock is acquired at the route layer. -/
theorem mutating_routes_all_no_lock :
    mutatingRouteConfigs.all
      (fun h => h.lockAction == LockAction.notApplicable) = true := rfl

/-- C8: the conditional-config upsert route requires the JWT permission
`SurchargeDecisionManagerRead` (in both release and non-release
builds), whereas the corresponding delete route requires
`SurchargeDecisionManagerWrite`. -/
theorem upsert_decision_manager_requires_read :
    upsert_decision_manager_config.authRelease
        = .jwt .SurchargeDecisionManagerRead
    ∧ upsert_decision_manager_config.authNonRelease
        = .authType .headerApiKey (.jwt .SurchargeDecisionManagerRead)
    ∧ delete_decision_manager_config.authRelease
        = .jwt .SurchargeDecisionManagerWrite
    ∧ delete_decision_manager_config.authNonRelease
        = .authType .headerApiKey (.jwt .SurchargeDecisionManagerWrite) :=
  ⟨rfl, rfl, rfl, rfl⟩

/-- C9: in release builds, `routing_retrieve_default_config_for_profiles`
accepts either API-key header authentication or JWT with RoutingRead —
its release auth equals its non-release auth — whereas every other
routing read route in release builds accepts only JWT with
RoutingRead. -/
theorem retrieve_default_for_profiles_release_auth :
    routing_retrieve_default_config_for_profiles.authRelease
        = .authType .headerApiKey (.jwt .RoutingRead)
    ∧ routing_retrieve_default_config_for_profiles.authRelease
        = routing_retrieve_default_config_for_profiles.authNonRelease
    ∧ otherRoutingReadConfigs.all
        (fun h => h.authRelease == AuthStrategy.jwt .RoutingRead) = true :=
  ⟨rfl, rfl, rfl⟩

/-- C10: `call_encryption_service` returns a decoded value only when
the response status is 200; status 500 yields `InternalServerError`
with the body bytes, 400 yields `BadRequest`, any other status yields
`Unexpected`; and `create_key_in_key_manager` /
`transfer_key_to_key_manager` map every such error to `KeyAddFailed` /
`KeyTransferFailed`. -/
theorem call_encryption_service_status_dispatch {R : Type}
    (decodeBody : List Nat → Option R)
    (sendResult : Except ApiClientError HttpResponse) :
    (∀ r, call_encryption_service decodeBody sendResult = .ok r →
      ∃ resp, sendResult = .ok resp ∧ resp.status = 200
        ∧ decodeBody resp.body = some r)
    ∧ (∀ resp, sendResult = .ok resp → resp.status = 500 →
      call_encryption_service decodeBody sendResult
        = .error (.InternalServerError resp.body))
    ∧ (∀ resp, sendResult = .ok resp → resp.status = 400 →
      call_encryption_service decodeBody sendResult
        = .error (.BadRequest resp.body))
    ∧ (∀ resp, sendResult = .ok resp → resp.status ≠ 200 →
      resp.status ≠ 500 → resp.status ≠ 400 →
      call_encryption_service decodeBody sendResult
        = .error (.Unexpected resp.body))
    ∧ (∀ e, call_encryption_service decodeBody sendResult = .error e →
      create_key_in_key_manager decodeBody sendResult = .error .KeyAddFailed
      ∧ transfer_key_to_key_manager decodeBody sendResult
          = .error .KeyTransferFailed) := by
  refine ⟨?_, ?_, ?_, ?_, ?_⟩
  · intro r h
    cases sendResult with
    | error e => simp [call_encryption_service] at h
    | ok resp =>
      refine ⟨resp, rfl, ?_⟩
      rw [call_encryption_service] at h
      by_cases h200 : resp.status = 200
      · rw [if_pos h200] at h
        cases hdec : decodeBody resp.body with
        | none => rw [hdec] at h; exact Except.noConfusion h
        | some v =>
          rw [hdec] at h
          injection h with h
          exact ⟨h200, by rw [h]⟩
      · exfalso
        rw [if_neg h200] at h
        by_cases h500 : resp.status = 500
        · rw [if_pos h500] at h; exact Except.noConfusion h
        · rw [if_neg h500] at h
          by_cases h400 : resp.status = 400
          · rw [if_pos h400] at h; exact Except.noConfusion h
          · rw [if_neg h400] at h; exact Except.noConfusion h
  · intro resp hsend h500
    subst hsend
    rw [call_encryption_service, if_neg (by simp [h500]), if_pos h500]
  · intro resp hsend h400
    subst hsend
    rw [call_encryption_service, if_neg (by simp [h400]),
      if_neg (by simp [h400]), if_pos h400]
  · intro resp hsend h200 h500 h400
    subst hsend
    rw [call_encryption_service, if_neg h200, if_neg h500, if_neg h400]
  · intro e h
    constructor
    · rw [create_key_in_key_manager, h]
      rfl
    · rw [transfer_key_to_key_manager, h]
      rfl

/-- C10 witness: a 500 response with body bytes `[7]` yields
`InternalServerError [7]`, and the create entry point reports
`KeyAddFailed` on it. -/
theorem call_encryption_service_status_dispatch_witness :
    call_encryption_service (fun _ => (none : Option Nat))
        (.ok { status := 500, body := [7] })
      = .error (.InternalServerError [7])
    ∧ create_key_in_key_manager (fun _ => (none : Option Nat))
        (.ok { status := 500, body := [7] })
      = .error .KeyAddFailed := by
  have h := call_encryption_service_status_dispatch
    (fun _ => (none : Option Nat)) (.ok { status := 500, body := [7] })
  have h1 := h.2.1 { status := 500, body := [7] } rfl rfl
  exact ⟨h1, (h.2.2.2.2 _ h1).1⟩

end Hyperswitch
